import Mathlib

/-!
Shallow embedding of the postmangovsg worker dispatch pipeline
(`worker/src/core/loaders/message-worker/sms.class.ts` and
`email.class.ts`) and of the callback state machine described by the
spec and exercised by `backend/src/sms/routes/tests/sms-callback.routes.test.ts`.

External collaborators of the worker classes (the SQL functions invoked
through `connection.query`, the phone-number normaliser, the template
client, the Twilio/SNS/mail clients, the theme renderer and the
contact-preference service) are modelled as oracle parameters: the
theorems quantify over every possible behaviour of these collaborators.
Database tables (`sms_ops` / `email_ops`) are modelled as total maps
from row id to a record, and each `UPDATE ... WHERE id=:id` statement
becomes a pointwise override of that map.
-/

/-- Delivery status values stored in the `status` column of
`sms_ops` / `email_ops`. -/
inductive Status
  | UNSENT
  | SENDING
  | SENT
  | DELIVERED
  | ERROR
deriving DecidableEq, Repr

/-- One row of `sms_ops` / `email_ops`: the per-recipient
delivery-tracking record mutated by the dispatch and callback paths. -/
structure MessageRecord where
  status : Status
  messageId : Option String
  errorCode : Option String
  deliveredAt : Option Nat
  updatedAt : Option Nat
deriving DecidableEq, Repr

/-- The ops table, as a total map from row id to record. -/
def Db : Type := Nat → MessageRecord

/-- Embeds `UPDATE ... WHERE id=:id`: override a single row of the table. -/
def updateRow (db : Db) (id : Nat) (f : MessageRecord → MessageRecord) : Db :=
  fun j => if j = id then f (db j) else db j

/-- JavaScript `errorMessage.substring(0, 255)`: the error text is
truncated to the 255-character storage limit before being written. -/
def truncate255 (s : String) : String :=
  String.mk (s.data.take 255)

/-- Embeds `UPDATE sms_ops SET status=SENDING, delivered_at=clock_timestamp(),
message_id=:messageId, updated_at=clock_timestamp() WHERE id=:id`
(sms.class.ts, success branch of `sendMessage`). -/
def smsOpsSetSending (db : Db) (id : Nat) (mid : Option String) (now : Nat) : Db :=
  updateRow db id fun r =>
    { r with
      status := Status.SENDING
      deliveredAt := some now
      messageId := mid
      updatedAt := some now }

/-- Embeds `UPDATE sms_ops SET status=ERROR, delivered_at=clock_timestamp(),
error_code=:error, updated_at=clock_timestamp() WHERE id=:id`
(sms.class.ts, catch branch of `sendMessage`). `err` is the already
truncated error message. -/
def smsOpsSetError (db : Db) (id : Nat) (err : String) (now : Nat) : Db :=
  updateRow db id fun r =>
    { r with
      status := Status.ERROR
      deliveredAt := some now
      errorCode := some err
      updatedAt := some now }

/-- Embeds `UPDATE email_ops SET status=SENDING, delivered_at=clock_timestamp(),
updated_at=clock_timestamp() WHERE id=:id` (email.class.ts, success path
of `sendMessage`). Note: unlike the SMS variant, no `message_id` column
is written. -/
def emailOpsSetSending (db : Db) (id : Nat) (now : Nat) : Db :=
  updateRow db id fun r =>
    { r with
      status := Status.SENDING
      deliveredAt := some now
      updatedAt := some now }

/-- Embeds `UPDATE email_ops SET status=ERROR, delivered_at=clock_timestamp(),
error_code=:error, updated_at=clock_timestamp() WHERE id=:id`
(email.class.ts, catch branch of `sendMessage`). -/
def emailOpsSetError (db : Db) (id : Nat) (err : String) (now : Nat) : Db :=
  updateRow db id fun r =>
    { r with
      status := Status.ERROR
      deliveredAt := some now
      errorCode := some err
      updatedAt := some now }

/-! Transactions.

`sequelize.transaction(cb)` runs `cb` and commits its effects; if `cb`
throws, every statement attached to the transaction is rolled back and
the error propagates. We model a transactional statement as a fallible
state transformer and the transaction wrapper as: commit the composite
result, or return the caller's original state together with the error. -/

/-- Sequelize `connection.transaction`: run the body; on success commit
the new state, on failure roll back to the original state and surface
the error. -/
def runTransaction {σ ε : Type} (body : σ → Except ε σ) (s : σ) : σ × Option ε :=
  match body s with
  | Except.ok s2 => (s2, none)
  | Except.error e => (s, some e)

/-- Embeds `SMS.enqueueMessages(jobId, campaignId)`: inside one transaction,
`SELECT enqueue_messages_sms(:job_id)` then
`SELECT update_stats_sms(:campaign_id)`. The two SQL procedures are
oracles over the database state `σ`. -/
def SMS.enqueueMessages {σ ε : Type}
    (enqueueMessagesSms : Nat → σ → Except ε σ)
    (updateStatsSms : Nat → σ → Except ε σ)
    (jobId campaignId : Nat) (s : σ) : σ × Option ε :=
  runTransaction
    (fun s0 => (enqueueMessagesSms jobId s0).bind (updateStatsSms campaignId)) s

/-- Embeds `Email.enqueueMessages(jobId, campaignId)`: inside one transaction,
`SELECT enqueue_messages_email(:job_id)` then
`SELECT update_stats_email_with_read(:campaign_id)`. -/
def Email.enqueueMessages {σ ε : Type}
    (enqueueMessagesEmail : Nat → σ → Except ε σ)
    (updateStatsEmailWithRead : Nat → σ → Except ε σ)
    (jobId campaignId : Nat) (s : σ) : σ × Option ε :=
  runTransaction
    (fun s0 => (enqueueMessagesEmail jobId s0).bind (updateStatsEmailWithRead campaignId)) s

/-! The SMS worker. -/

/-- Twilio credential bundle resolved by
`CredentialService.getTwilioCredentials`. -/
structure TwilioCredentials where
  accountSid : String
  apiKey : String
  apiSecret : String
  messagingServiceSid : String
deriving DecidableEq, Repr

/-- The sending client held by the SMS worker: `new TwilioClient(credentials)`
or, when the fallback flag is active, `new SnsSmsClient()`. -/
inductive SmsClientKind
  | twilioClient (credentials : TwilioCredentials)
  | snsSmsClient
deriving DecidableEq, Repr

/-- The mutable state of one `SMS` worker instance: the private
`smsClient` field (`TwilioClient | SnsSmsClient | null`). -/
structure SmsWorker where
  smsClient : Option SmsClientKind
deriving DecidableEq, Repr

/-- External collaborators and configuration read by the SMS worker.
`normalisePhoneNumber` returns `none` when
`PhoneNumberService.normalisePhoneNumber` throws; `template` is
`templateClient.template`; `clientSend` is the gateway client's `send`
(arguments: client, message id, normalised recipient, rendered body,
campaign id), returning the provider message id or failing. `now` is
`clock_timestamp()`. `undefinedReplacementError` is the message of the
error with which the query layer (sequelize) rejects a query whose
named replacement `:messageId` is passed `undefined` — which happens
when the null-client optional chaining resolves the chain with
`undefined`. -/
structure SmsEnv where
  defaultCountry : String
  smsFallbackActivate : Bool
  normalisePhoneNumber : String → String → Option String
  template : String → List (String × String) → Except String String
  clientSend : SmsClientKind → Nat → String → String → Option Nat → Except String String
  undefinedReplacementError : String
  now : Nat

/-- The argument object of `SMS.sendMessage`. -/
structure SmsMessage where
  id : Nat
  recipient : String
  params : List (String × String)
  body : String
  campaignId : Option Nat
deriving DecidableEq, Repr

/-- Embeds `SMS.sendMessage`: normalise the recipient (rejecting with
"Recipient is incorrectly formatted" if normalisation throws), render
the body, call `smsClient?.send` (optional chaining: skipped entirely,
arguments unevaluated, when `smsClient` is `null`), then update the row:
`SENDING` with the provider message id on success, `ERROR` with the
truncated failure message on any rejection. On the null-client path the
chain resolves with an undefined message id, and the SENDING update is
rejected by the query layer (sequelize refuses an `undefined` named
replacement for `:messageId`), so the catch records `ERROR` with that
query-layer error. Returns the updated table and whether the gateway
client's `send` was invoked. The promise chain ends in a catch-all, so
the function is total: it never rejects. -/
def SMS.sendMessage (env : SmsEnv) (w : SmsWorker) (db : Db) (m : SmsMessage) :
    Db × Bool :=
  match env.normalisePhoneNumber m.recipient env.defaultCountry with
  | none =>
    (smsOpsSetError db m.id (truncate255 "Recipient is incorrectly formatted") env.now, false)
  | some normalisedRecipient =>
    match w.smsClient with
    | none =>
      (smsOpsSetError db m.id (truncate255 env.undefinedReplacementError) env.now, false)
    | some client =>
      match env.template m.body m.params with
      | Except.error e => (smsOpsSetError db m.id (truncate255 e) env.now, false)
      | Except.ok rendered =>
        match env.clientSend client m.id normalisedRecipient rendered m.campaignId with
        | Except.error e => (smsOpsSetError db m.id (truncate255 e) env.now, true)
        | Except.ok mid => (smsOpsSetSending db m.id (some mid) env.now, true)

/-- Embeds `SMS.setSendingService(credentialName)`: resolve Twilio credentials
(an awaited call that may reject), then select the client: `SnsSmsClient`
when the config flag `smsFallback.activate` is set, otherwise a
`TwilioClient` built from the resolved credentials. On rejection the
worker state is untouched and the error propagates. -/
def SMS.setSendingService
    (getTwilioCredentials : String → Except String TwilioCredentials)
    (smsFallbackActivate : Bool)
    (credentialName : String) (st : SmsWorker) : SmsWorker × Option String :=
  match getTwilioCredentials credentialName with
  | Except.error e => (st, some e)
  | Except.ok credentials =>
    ({ st with
        smsClient := some
          (if smsFallbackActivate then SmsClientKind.snsSmsClient
           else SmsClientKind.twilioClient credentials) }, none)

/-- Embeds `SMS.destroySendingService()`: `this.smsClient = null`. -/
def SMS.destroySendingService (st : SmsWorker) : SmsWorker :=
  { st with smsClient := none }

/-- One row returned by `get_messages_to_send_sms`. -/
structure SmsRow where
  id : Nat
  recipient : String
  params : List (String × String)
  body : String
  campaignId : Nat
deriving DecidableEq, Repr

/-- Embeds `SMS.getMessages(jobId, rate)` after the batch rows have been
fetched: when `phonebookContactPref.enabled` is set and the batch is
non-empty, try to look up the campaign owner's email (`users` join
`campaigns` query; an empty result throws) and enrich the batch via
`getMessagesWithContactPrefLinks`; any failure in that try-block is
caught and logged, and the unenriched batch is returned instead. -/
def SMS.getMessages
    (phonebookContactPrefEnabled : Bool)
    (result : List SmsRow)
    (ownerEmailQuery : Nat → Except String (List String))
    (getMessagesWithContactPrefLinks :
      List SmsRow → Nat → String → Except String (List SmsRow)) :
    List SmsRow :=
  match result with
  | [] => result
  | r0 :: _ =>
    if phonebookContactPrefEnabled then
      match ownerEmailQuery r0.campaignId with
      | Except.error _ => result
      | Except.ok [] => result
      | Except.ok (userEmail :: _) =>
        match getMessagesWithContactPrefLinks result r0.campaignId userEmail with
        | Except.error _ => result
        | Except.ok enriched => enriched
    else result

/-! The email worker. -/

/-- One message handled by the email worker (the `Message` shape used by
`Email.getMessages` / `Email.sendMessage`). `senderEmail` is the field
of the fetched row from which the masthead flag is derived;
`showMasthead` is `Option Bool` because rows come out of the database
without the flag and acquire it only where the worker computes it. -/
structure EmailMessage where
  id : Nat
  recipient : String
  params : List (String × String)
  body : String
  subject : String
  replyTo : Option String
  senderEmail : String
  «from» : Option String
  campaignId : Option Nat
  agencyName : Option String
  agencyLogoURI : Option String
  showMasthead : Option Bool
  contactPrefLink : Option String
deriving DecidableEq, Repr

/-- External collaborators and configuration read by the email worker.
`isEmail` is `validator.isEmail`; `template` is `templateClient.template`;
`generateThemedHTMLEmail` is `ThemeClient.generateThemedHTMLEmail`
(arguments: hydrated body, unsubscribe link, agency name, agency logo,
masthead flag, contact-preference link); `sendMail` is
`mailService.sendMail` (arguments: from, recipient, subject, themed
body, message id), returning the provider response, which the worker
discards. `generateUnsubLink` stands for the HMAC-link builder. -/
structure EmailEnv where
  isEmail : String → Bool
  template : String → List (String × String) → Except String String
  generateThemedHTMLEmail :
    String → String → Option String → Option String → Option Bool → Option String →
      Except String String
  sendMail : String → String → String → String → Nat → Except String String
  generateUnsubLink : Option Nat → String → String
  mailFrom : String
  now : Nat

/-- Embeds `Email.sendMessage`: inside one try-block — validate the recipient
with `validator.isEmail` (throwing "Recipient is incorrectly formatted"),
hydrate subject and body, build the unsubscribe link, render the themed
HTML, send the mail, and update the row to `SENDING`; the catch-block
updates the row to `ERROR` with the truncated failure message. Returns
the updated table and whether `mailService.sendMail` was invoked. The
catch-all makes the function total: it never rejects. -/
def Email.sendMessage (env : EmailEnv) (db : Db) (m : EmailMessage) :
    Db × Bool :=
  if env.isEmail m.recipient then
    match env.template m.subject m.params with
    | Except.error e => (emailOpsSetError db m.id (truncate255 e) env.now, false)
    | Except.ok hydratedSubject =>
      match env.template m.body m.params with
      | Except.error e => (emailOpsSetError db m.id (truncate255 e) env.now, false)
      | Except.ok hydratedBody =>
        match env.generateThemedHTMLEmail hydratedBody
            (env.generateUnsubLink m.campaignId m.recipient)
            m.agencyName m.agencyLogoURI m.showMasthead m.contactPrefLink with
        | Except.error e => (emailOpsSetError db m.id (truncate255 e) env.now, false)
        | Except.ok themedHTMLEmail =>
          match env.sendMail (m.«from».getD env.mailFrom) m.recipient
              hydratedSubject themedHTMLEmail m.id with
          | Except.error e => (emailOpsSetError db m.id (truncate255 e) env.now, true)
          | Except.ok _ => (emailOpsSetSending db m.id env.now, true)
  else
    (emailOpsSetError db m.id (truncate255 "Recipient is incorrectly formatted") env.now, false)

/-- JavaScript `senderEmail.endsWith(showMastheadDomain)`. -/
def strEndsWith (s suffixStr : String) : Bool :=
  List.isSuffixOf suffixStr.data s.data

/-- The per-row map at the end of `Email.getMessages`: spread the row
and set `showMasthead` from whether the sender address ends with the
configured masthead domain. -/
def Email.addMasthead (showMastheadDomain : String) (m : EmailMessage) : EmailMessage :=
  { m with showMasthead := some (strEndsWith m.senderEmail showMastheadDomain) }

/-- Embeds `Email.getMessages(jobId, rate)` after the batch rows have been
fetched: when `phonebookContactPref.enabled` is set and the batch is
non-empty, try to look up the campaign owner's email and return the
batch enriched by `getContactPrefLinksForEmail` directly; any failure in
that try-block is caught and logged. All other paths return the fetched
rows mapped through the masthead flag computation. -/
def Email.getMessages
    (showMastheadDomain : String)
    (phonebookContactPrefEnabled : Bool)
    (result : List EmailMessage)
    (ownerEmailQuery : Option Nat → Except String (List String))
    (getContactPrefLinksForEmail :
      List EmailMessage → Option Nat → String → Except String (List EmailMessage)) :
    List EmailMessage :=
  match result with
  | [] => List.map (Email.addMasthead showMastheadDomain) result
  | r0 :: _ =>
    if phonebookContactPrefEnabled then
      match ownerEmailQuery r0.campaignId with
      | Except.error _ => List.map (Email.addMasthead showMastheadDomain) result
      | Except.ok [] => List.map (Email.addMasthead showMastheadDomain) result
      | Except.ok (userEmail :: _) =>
        match getContactPrefLinksForEmail result r0.campaignId userEmail with
        | Except.error _ => List.map (Email.addMasthead showMastheadDomain) result
        | Except.ok enriched => enriched
    else List.map (Email.addMasthead showMastheadDomain) result

/-- Modelled from the spec: the contact-preference enrichment helper
`getContactPrefLinksForEmail`
(`worker/src/core/loaders/message-worker/util/contact-preference.ts`,
not present in the sources). Per §4.3 step 2 and §6, it calls the
external preference service
`(campaignId, recipients, ownerEmail) -> recipient -> optOutLink` and
augments each message with its preference link; service failure is a
rejection (handled by the caller). `service` is the external service's
behaviour for this call. -/
def specGetContactPrefLinksForEmail
    (service : Except String (String → Option String))
    (rows : List EmailMessage) (_campaignId : Option Nat) (_userEmail : String) :
    Except String (List EmailMessage) :=
  match service with
  | Except.error e => Except.error e
  | Except.ok linkFor =>
    Except.ok (rows.map fun m => { m with contactPrefLink := linkFor m.recipient })

/-! Callback ingestor (spec-modelled state machine). -/

/-- Modelled from the spec: the provider-status vocabulary mapped by the
Callback Ingestor (`SmsCallbackService.parseEvent` and the email
equivalent are not present in the sources; only the behavioural test
`sms-callback.routes.test.ts` is). §4.4: success indicators, explicit
delivery confirmation, and failure indicators carrying an error code. -/
inductive CallbackKind
  | sentKind
  | deliveredKind
  | failedKind (errorCode : String)
deriving DecidableEq, Repr

/-- Modelled from the spec: a provider callback event — a provider
message id, a mapped status, and (for failures) an error code (§3,
CallbackEvent). -/
structure CallbackEvent where
  providerMessageId : String
  kind : CallbackKind
deriving DecidableEq, Repr

/-- Modelled from the spec: the status transition applied by the
Callback Ingestor to a tracked record (§4.4): "sent" → `SENT` only from
`SENDING`/`UNSENT`, no-op if already terminal; "delivered" → `DELIVERED`
only from `SENT`, a record already in `ERROR` is left untouched;
failure → `ERROR` from any prior state, recording the code. -/
def applyCallbackEvent (r : MessageRecord) (k : CallbackKind) : MessageRecord :=
  match k with
  | CallbackKind.sentKind =>
    if r.status = Status.SENDING ∨ r.status = Status.UNSENT then
      { r with status := Status.SENT }
    else r
  | CallbackKind.deliveredKind =>
    if r.status = Status.SENT then { r with status := Status.DELIVERED } else r
  | CallbackKind.failedKind errorCode =>
    { r with status := Status.ERROR, errorCode := some errorCode }

/-- The tracked records, keyed by provider message id (`none` for ids
the system no longer tracks). -/
def CallbackDb : Type := String → Option MessageRecord

/-- Modelled from the spec: `ingest(event)` (§4.4) — look up the record
by the event's provider message id; events for unknown ids are ignored;
otherwise apply the status mapping to that record. -/
def ingest (db : CallbackDb) (e : CallbackEvent) : CallbackDb :=
  fun mid =>
    if mid = e.providerMessageId then
      match db mid with
      | none => none
      | some r => some (applyCallbackEvent r e.kind)
    else db mid

/-! Helper lemmas. -/

theorem updateRow_self (db : Db) (id : Nat) (f : MessageRecord → MessageRecord) :
    updateRow db id f id = f (db id) := by
  simp [updateRow]

theorem updateRow_other (db : Db) (id j : Nat) (f : MessageRecord → MessageRecord)
    (h : j ≠ id) : updateRow db id f j = db j := by
  simp [updateRow, h]

theorem truncate255_length (s : String) : (truncate255 s).length ≤ 255 := by
  show (s.data.take 255).length ≤ 255
  rw [List.length_take]
  exact min_le_left _ _

theorem applyCallbackEvent_preserves_error (r : MessageRecord) (k : CallbackKind)
    (h : r.status = Status.ERROR) :
    (applyCallbackEvent r k).status = Status.ERROR := by
  cases k <;> simp [applyCallbackEvent, h]

theorem ingest_preserves_error (db : CallbackDb) (e : CallbackEvent) (mid : String)
    (h : (db mid).map MessageRecord.status = some Status.ERROR) :
    ((ingest db e) mid).map MessageRecord.status = some Status.ERROR := by
  rcases Option.map_eq_some'.mp h with ⟨r, hr, hst⟩
  show (if mid = e.providerMessageId then
      match db mid with
      | none => none
      | some r => some (applyCallbackEvent r e.kind)
    else db mid).map MessageRecord.status = some Status.ERROR
  by_cases hm : mid = e.providerMessageId
  · rw [if_pos hm, hr]
    simpa using applyCallbackEvent_preserves_error r e.kind hst
  · rw [if_neg hm]
    exact h

theorem runTransaction_bind_cases {σ ε : Type} (f : σ → Except ε σ)
    (g : σ → Except ε σ) (s : σ) :
    (∃ s1 s2, f s = Except.ok s1 ∧ g s1 = Except.ok s2 ∧
      runTransaction (fun s0 => (f s0).bind g) s = (s2, none)) ∨
    (∃ e, runTransaction (fun s0 => (f s0).bind g) s = (s, some e) ∧
      (f s = Except.error e ∨ ∃ s1, f s = Except.ok s1 ∧ g s1 = Except.error e)) := by
  rcases hf : f s with e | s1
  · right
    exact ⟨e, by simp [runTransaction, hf, Except.bind], Or.inl rfl⟩
  · rcases hg : g s1 with e | s2
    · right
      exact ⟨e, by simp [runTransaction, hf, hg, Except.bind], Or.inr ⟨s1, rfl, hg⟩⟩
    · left
      exact ⟨s1, s2, rfl, hg, by simp [runTransaction, hf, hg, Except.bind]⟩

/-! Claim theorems. -/

/-- Claim C1: once a MessageRecord's status is ERROR, applying any later
sequence of callback events — including a delivered success event
carrying the same provider message id — leaves the status ERROR; the
status never regresses from ERROR regardless of callback ordering. -/
theorem error_status_never_regresses (db : CallbackDb) (mid : String)
    (events : List CallbackEvent)
    (h : (db mid).map MessageRecord.status = some Status.ERROR) :
    ((events.foldl ingest db) mid).map MessageRecord.status = some Status.ERROR := by
  induction events generalizing db with
  | nil => exact h
  | cons e es ih =>
    rw [List.foldl_cons]
    exact ih (ingest db e) (ingest_preserves_error db e mid h)

/-- Witness for C1: a record tracked under provider id
"message_id_callback" already in ERROR stays in ERROR after a
"delivered" callback and a "sent" callback for that very id. -/
theorem error_status_never_regresses_witness :
    ((List.foldl ingest
      (fun mid => if mid = "message_id_callback" then
        some { status := Status.ERROR, messageId := some "message_id_callback",
               errorCode := some "ERRORBOI", deliveredAt := none, updatedAt := none }
        else none)
      [{ providerMessageId := "message_id_callback", kind := CallbackKind.deliveredKind },
       { providerMessageId := "message_id_callback", kind := CallbackKind.sentKind }])
      "message_id_callback").map MessageRecord.status = some Status.ERROR :=
  error_status_never_regresses _ "message_id_callback" _ (by decide)

/-- Claim C2: `enqueueMessages(jobId, campaignId)` (SMS and email
variants) runs the enqueue SQL procedure and the statistics
recomputation inside one transaction: either both effects commit, or
the operation surfaces the error with the database state rolled back to
exactly what it was before the call. -/
theorem enqueueMessages_atomic {σ ε : Type}
    (enqueueMessagesSms updateStatsSms enqueueMessagesEmail updateStatsEmailWithRead :
      Nat → σ → Except ε σ)
    (jobId campaignId : Nat) (s : σ) :
    ((∃ s1 s2, enqueueMessagesSms jobId s = Except.ok s1 ∧
        updateStatsSms campaignId s1 = Except.ok s2 ∧
        SMS.enqueueMessages enqueueMessagesSms updateStatsSms jobId campaignId s = (s2, none)) ∨
      (∃ e, SMS.enqueueMessages enqueueMessagesSms updateStatsSms jobId campaignId s = (s, some e) ∧
        (enqueueMessagesSms jobId s = Except.error e ∨
          ∃ s1, enqueueMessagesSms jobId s = Except.ok s1 ∧
            updateStatsSms campaignId s1 = Except.error e))) ∧
    ((∃ s1 s2, enqueueMessagesEmail jobId s = Except.ok s1 ∧
        updateStatsEmailWithRead campaignId s1 = Except.ok s2 ∧
        Email.enqueueMessages enqueueMessagesEmail updateStatsEmailWithRead jobId campaignId s =
          (s2, none)) ∨
      (∃ e, Email.enqueueMessages enqueueMessagesEmail updateStatsEmailWithRead jobId campaignId s =
          (s, some e) ∧
        (enqueueMessagesEmail jobId s = Except.error e ∨
          ∃ s1, enqueueMessagesEmail jobId s = Except.ok s1 ∧
            updateStatsEmailWithRead campaignId s1 = Except.error e))) :=
  ⟨runTransaction_bind_cases (fun s0 => enqueueMessagesSms jobId s0)
      (updateStatsSms campaignId) s,
    runTransaction_bind_cases (fun s0 => enqueueMessagesEmail jobId s0)
      (updateStatsEmailWithRead campaignId) s⟩

theorem smsOpsSetError_facts (db : Db) (id : Nat) (e : String) (now : Nat) :
    ((smsOpsSetError db id (truncate255 e) now) id).status = Status.ERROR ∧
    ((smsOpsSetError db id (truncate255 e) now) id).errorCode = some (truncate255 e) ∧
    ∀ j, j ≠ id → (smsOpsSetError db id (truncate255 e) now) j = db j := by
  refine ⟨by simp [smsOpsSetError, updateRow], by simp [smsOpsSetError, updateRow], ?_⟩
  intro j hj
  simp [smsOpsSetError, updateRow, hj]

theorem emailOpsSetError_facts (db : Db) (id : Nat) (e : String) (now : Nat) :
    ((emailOpsSetError db id (truncate255 e) now) id).status = Status.ERROR ∧
    ((emailOpsSetError db id (truncate255 e) now) id).errorCode = some (truncate255 e) ∧
    ∀ j, j ≠ id → (emailOpsSetError db id (truncate255 e) now) j = db j := by
  refine ⟨by simp [emailOpsSetError, updateRow], by simp [emailOpsSetError, updateRow], ?_⟩
  intro j hj
  simp [emailOpsSetError, updateRow, hj]

/-- Some step of the SMS send path fails for this message: recipient
normalisation throws, or (with a client set) template rendering throws,
or the gateway `send` rejects. -/
def smsSendFailure (env : SmsEnv) (w : SmsWorker) (m : SmsMessage) : Prop :=
  env.normalisePhoneNumber m.recipient env.defaultCountry = none ∨
  (∃ nr client, env.normalisePhoneNumber m.recipient env.defaultCountry = some nr ∧
    w.smsClient = some client ∧
    ((∃ e, env.template m.body m.params = Except.error e) ∨
     (∃ rendered e, env.template m.body m.params = Except.ok rendered ∧
       env.clientSend client m.id nr rendered m.campaignId = Except.error e)))

/-- Some step of the email send path fails for this message: recipient
validation, subject or body rendering, themed-HTML generation, or the
mail relay `sendMail`. -/
def emailSendFailure (env : EmailEnv) (m : EmailMessage) : Prop :=
  env.isEmail m.recipient = false ∨
  (env.isEmail m.recipient = true ∧
    ((∃ e, env.template m.subject m.params = Except.error e) ∨
     (∃ hs, env.template m.subject m.params = Except.ok hs ∧
       ((∃ e, env.template m.body m.params = Except.error e) ∨
        (∃ hb, env.template m.body m.params = Except.ok hb ∧
          ((∃ e, env.generateThemedHTMLEmail hb
              (env.generateUnsubLink m.campaignId m.recipient)
              m.agencyName m.agencyLogoURI m.showMasthead m.contactPrefLink =
                Except.error e) ∨
           (∃ html, env.generateThemedHTMLEmail hb
              (env.generateUnsubLink m.campaignId m.recipient)
              m.agencyName m.agencyLogoURI m.showMasthead m.contactPrefLink =
                Except.ok html ∧
             ∃ e, env.sendMail (m.«from».getD env.mailFrom) m.recipient hs html m.id =
               Except.error e)))))))

/-- Claim C3: `sendMessage` is total (it resolves for every oracle
behaviour — the Lean functions return a result on all paths), and when
validation, rendering or the transport fails for a message, only that
record is updated — to status ERROR with the failure message truncated
to 255 characters — while every other record is untouched, so one
recipient's failure never affects the rest of the batch. Holds for both
the SMS and the email worker. -/
theorem sendMessage_failure_isolated
    (envS : SmsEnv) (w : SmsWorker) (dbS : Db) (ms : SmsMessage)
    (envE : EmailEnv) (dbE : Db) (me : EmailMessage)
    (hS : smsSendFailure envS w ms) (hE : emailSendFailure envE me) :
    (((SMS.sendMessage envS w dbS ms).1 ms.id).status = Status.ERROR ∧
      (∃ e, ((SMS.sendMessage envS w dbS ms).1 ms.id).errorCode = some (truncate255 e) ∧
        (truncate255 e).length ≤ 255) ∧
      ∀ j, j ≠ ms.id → (SMS.sendMessage envS w dbS ms).1 j = dbS j) ∧
    (((Email.sendMessage envE dbE me).1 me.id).status = Status.ERROR ∧
      (∃ e, ((Email.sendMessage envE dbE me).1 me.id).errorCode = some (truncate255 e) ∧
        (truncate255 e).length ≤ 255) ∧
      ∀ j, j ≠ me.id → (Email.sendMessage envE dbE me).1 j = dbE j) := by
  constructor
  · rcases hS with h | ⟨nr, client, hnr, hcl, htmpl | hsend⟩
    · have hred : SMS.sendMessage envS w dbS ms =
          (smsOpsSetError dbS ms.id
            (truncate255 "Recipient is incorrectly formatted") envS.now, false) := by
        simp [SMS.sendMessage, h]
      rw [hred]
      obtain ⟨f1, f2, f3⟩ :=
        smsOpsSetError_facts dbS ms.id "Recipient is incorrectly formatted" envS.now
      exact ⟨f1, ⟨_, f2, truncate255_length _⟩, f3⟩
    · obtain ⟨e, he⟩ := htmpl
      have hred : SMS.sendMessage envS w dbS ms =
          (smsOpsSetError dbS ms.id (truncate255 e) envS.now, false) := by
        simp [SMS.sendMessage, hnr, hcl, he]
      rw [hred]
      obtain ⟨f1, f2, f3⟩ := smsOpsSetError_facts dbS ms.id e envS.now
      exact ⟨f1, ⟨_, f2, truncate255_length _⟩, f3⟩
    · obtain ⟨rendered, e, hr, he⟩ := hsend
      have hred : SMS.sendMessage envS w dbS ms =
          (smsOpsSetError dbS ms.id (truncate255 e) envS.now, true) := by
        simp [SMS.sendMessage, hnr, hcl, hr, he]
      rw [hred]
      obtain ⟨f1, f2, f3⟩ := smsOpsSetError_facts dbS ms.id e envS.now
      exact ⟨f1, ⟨_, f2, truncate255_length _⟩, f3⟩
  · rcases hE with h | ⟨h, hrest⟩
    · have hred : Email.sendMessage envE dbE me =
          (emailOpsSetError dbE me.id
            (truncate255 "Recipient is incorrectly formatted") envE.now, false) := by
        simp [Email.sendMessage, h]
      rw [hred]
      obtain ⟨f1, f2, f3⟩ :=
        emailOpsSetError_facts dbE me.id "Recipient is incorrectly formatted" envE.now
      exact ⟨f1, ⟨_, f2, truncate255_length _⟩, f3⟩
    · rcases hrest with ⟨e, he⟩ | ⟨hs, hse, hrest⟩
      · have hred : Email.sendMessage envE dbE me =
            (emailOpsSetError dbE me.id (truncate255 e) envE.now, false) := by
          simp [Email.sendMessage, h, he]
        rw [hred]
        obtain ⟨f1, f2, f3⟩ := emailOpsSetError_facts dbE me.id e envE.now
        exact ⟨f1, ⟨_, f2, truncate255_length _⟩, f3⟩
      · rcases hrest with ⟨e, he⟩ | ⟨hb, hbe, hrest⟩
        · have hred : Email.sendMessage envE dbE me =
              (emailOpsSetError dbE me.id (truncate255 e) envE.now, false) := by
            simp [Email.sendMessage, h, hse, he]
          rw [hred]
          obtain ⟨f1, f2, f3⟩ := emailOpsSetError_facts dbE me.id e envE.now
          exact ⟨f1, ⟨_, f2, truncate255_length _⟩, f3⟩
        · rcases hrest with ⟨e, he⟩ | ⟨html, hth, e, he⟩
          · have hred : Email.sendMessage envE dbE me =
                (emailOpsSetError dbE me.id (truncate255 e) envE.now, false) := by
              simp [Email.sendMessage, h, hse, hbe, he]
            rw [hred]
            obtain ⟨f1, f2, f3⟩ := emailOpsSetError_facts dbE me.id e envE.now
            exact ⟨f1, ⟨_, f2, truncate255_length _⟩, f3⟩
          · have hred : Email.sendMessage envE dbE me =
                (emailOpsSetError dbE me.id (truncate255 e) envE.now, true) := by
              simp [Email.sendMessage, h, hse, hbe, hth, he]
            rw [hred]
            obtain ⟨f1, f2, f3⟩ := emailOpsSetError_facts dbE me.id e envE.now
            exact ⟨f1, ⟨_, f2, truncate255_length _⟩, f3⟩

/-! Concrete fixtures for witnesses and counterexamples. -/

/-- A fresh row: UNSENT, nothing recorded yet. -/
def defaultRecord : MessageRecord :=
  { status := Status.UNSENT, messageId := none, errorCode := none,
    deliveredAt := none, updatedAt := none }

/-- A table of fresh rows. -/
def dbAllUnsent : Db := fun _ => defaultRecord

/-- An SMS environment whose collaborators all succeed. -/
def smsEnvOk : SmsEnv :=
  { defaultCountry := "SG"
    smsFallbackActivate := false
    normalisePhoneNumber := fun r _ => some r
    template := fun b _ => Except.ok b
    clientSend := fun _ _ _ _ _ => Except.ok "provider-sms-id"
    undefinedReplacementError :=
      "Named replacement :messageId has no entry in the replacement map"
    now := 5 }

/-- An SMS environment whose phone-number normalisation throws. -/
def smsEnvBadRecipient : SmsEnv :=
  { smsEnvOk with normalisePhoneNumber := fun _ _ => none }

/-- The batch message of the reference scenario: recipient 98765432,
body "Hello world". -/
def smsMsg1 : SmsMessage :=
  { id := 2, recipient := "98765432", params := [], body := "Hello world",
    campaignId := some 3 }

/-- A worker holding a Twilio client. -/
def twilioWorker : SmsWorker :=
  { smsClient := some (SmsClientKind.twilioClient
      { accountSid := "", apiKey := "", apiSecret := "", messagingServiceSid := "" }) }

/-- The dummy Twilio credentials of the reference test. -/
def creds0 : TwilioCredentials :=
  { accountSid := "", apiKey := "", apiSecret := "", messagingServiceSid := "" }

/-- A worker that has never had a sending service set. -/
def freshSmsWorker : SmsWorker := { smsClient := none }

/-- An email environment whose collaborators all succeed; the relay
answers with provider id "provider-message-id". -/
def emailEnvOk : EmailEnv :=
  { isEmail := fun _ => true
    template := fun s _ => Except.ok s
    generateThemedHTMLEmail := fun b _ _ _ _ _ => Except.ok b
    sendMail := fun _ _ _ _ _ => Except.ok "provider-message-id"
    generateUnsubLink := fun _ _ => "unsub"
    mailFrom := "donotreply@mail.postman.gov.sg"
    now := 7 }

/-- An email environment whose recipient validation fails. -/
def emailEnvBadRecipient : EmailEnv :=
  { emailEnvOk with isEmail := fun _ => false }

/-- An email message fixture. -/
def emailMsg1 : EmailMessage :=
  { id := 1, recipient := "user@agency.gov.sg", params := [], body := "body",
    subject := "subject", replyTo := none,
    senderEmail := "donotreply@mail.postman.gov.sg", «from» := none,
    campaignId := some 3, agencyName := none, agencyLogoURI := none,
    showMasthead := some true, contactPrefLink := none }

/-- Witness for C3: a malformed SMS recipient and a malformed email
recipient each leave exactly their own row in ERROR with a truncated
message, every other row untouched. -/
theorem sendMessage_failure_isolated_witness :
    (((SMS.sendMessage smsEnvBadRecipient twilioWorker dbAllUnsent smsMsg1).1
        smsMsg1.id).status = Status.ERROR ∧
      (∃ e, ((SMS.sendMessage smsEnvBadRecipient twilioWorker dbAllUnsent smsMsg1).1
          smsMsg1.id).errorCode = some (truncate255 e) ∧
        (truncate255 e).length ≤ 255) ∧
      ∀ j, j ≠ smsMsg1.id →
        (SMS.sendMessage smsEnvBadRecipient twilioWorker dbAllUnsent smsMsg1).1 j =
          dbAllUnsent j) ∧
    (((Email.sendMessage emailEnvBadRecipient dbAllUnsent emailMsg1).1
        emailMsg1.id).status = Status.ERROR ∧
      (∃ e, ((Email.sendMessage emailEnvBadRecipient dbAllUnsent emailMsg1).1
          emailMsg1.id).errorCode = some (truncate255 e) ∧
        (truncate255 e).length ≤ 255) ∧
      ∀ j, j ≠ emailMsg1.id →
        (Email.sendMessage emailEnvBadRecipient dbAllUnsent emailMsg1).1 j =
          dbAllUnsent j) :=
  sendMessage_failure_isolated smsEnvBadRecipient twilioWorker dbAllUnsent smsMsg1
    emailEnvBadRecipient dbAllUnsent emailMsg1 (Or.inl rfl) (Or.inl rfl)

/-- Counterexample for C4 as stated: on a successful email send the
relay returns provider id "provider-message-id" and the row moves to
SENDING, but the `email_ops` SENDING update writes no `message_id`
column — the record's provider message id stays `none`, so the email
transport does not satisfy "updates the record to SENDING with the
provider-assigned message id". -/
theorem email_success_does_not_store_provider_id :
    emailEnvOk.sendMail "donotreply@mail.postman.gov.sg" "user@agency.gov.sg"
        "subject" "body" 1 = Except.ok "provider-message-id" ∧
    ((Email.sendMessage emailEnvOk dbAllUnsent emailMsg1).1 1).status = Status.SENDING ∧
    ((Email.sendMessage emailEnvOk dbAllUnsent emailMsg1).1 1).messageId = none ∧
    ((Email.sendMessage emailEnvOk dbAllUnsent emailMsg1).1 1).messageId ≠
      some "provider-message-id" := by
  refine ⟨rfl, rfl, rfl, ?_⟩
  have h0 : ((Email.sendMessage emailEnvOk dbAllUnsent emailMsg1).1 1).messageId = none := rfl
  rw [h0]
  intro h
  exact Option.noConfusion h

/-- Claim C4 (amended): on a successful send, the SMS worker updates
the record to SENDING with the provider-assigned message id and a fresh
timestamp; the email worker updates the record to SENDING with a fresh
timestamp but leaves the stored provider message id unchanged (it is
not written). -/
theorem sendMessage_success_updates_record
    (envS : SmsEnv) (w : SmsWorker) (dbS : Db) (ms : SmsMessage)
    (nr rendered mid : String) (client : SmsClientKind)
    (h1 : envS.normalisePhoneNumber ms.recipient envS.defaultCountry = some nr)
    (h2 : w.smsClient = some client)
    (h3 : envS.template ms.body ms.params = Except.ok rendered)
    (h4 : envS.clientSend client ms.id nr rendered ms.campaignId = Except.ok mid)
    (envE : EmailEnv) (dbE : Db) (me : EmailMessage) (hs hb html pmid : String)
    (e1 : envE.isEmail me.recipient = true)
    (e2 : envE.template me.subject me.params = Except.ok hs)
    (e3 : envE.template me.body me.params = Except.ok hb)
    (e4 : envE.generateThemedHTMLEmail hb
        (envE.generateUnsubLink me.campaignId me.recipient)
        me.agencyName me.agencyLogoURI me.showMasthead me.contactPrefLink =
          Except.ok html)
    (e5 : envE.sendMail (me.«from».getD envE.mailFrom) me.recipient hs html me.id =
        Except.ok pmid) :
    (((SMS.sendMessage envS w dbS ms).1 ms.id).status = Status.SENDING ∧
      ((SMS.sendMessage envS w dbS ms).1 ms.id).messageId = some mid ∧
      ((SMS.sendMessage envS w dbS ms).1 ms.id).deliveredAt = some envS.now ∧
      ((SMS.sendMessage envS w dbS ms).1 ms.id).updatedAt = some envS.now) ∧
    (((Email.sendMessage envE dbE me).1 me.id).status = Status.SENDING ∧
      ((Email.sendMessage envE dbE me).1 me.id).deliveredAt = some envE.now ∧
      ((Email.sendMessage envE dbE me).1 me.id).updatedAt = some envE.now ∧
      ((Email.sendMessage envE dbE me).1 me.id).messageId = (dbE me.id).messageId) := by
  constructor
  · have hred : SMS.sendMessage envS w dbS ms =
        (smsOpsSetSending dbS ms.id (some mid) envS.now, true) := by
      simp [SMS.sendMessage, h1, h2, h3, h4]
    rw [hred]
    refine ⟨?_, ?_, ?_, ?_⟩ <;> simp [smsOpsSetSending, updateRow]
  · have hred : Email.sendMessage envE dbE me =
        (emailOpsSetSending dbE me.id envE.now, true) := by
      simp [Email.sendMessage, e1, e2, e3, e4, e5]
    rw [hred]
    refine ⟨?_, ?_, ?_, ?_⟩ <;> simp [emailOpsSetSending, updateRow]

/-- Witness for C4 (amended): with all collaborators succeeding, the
SMS row gets SENDING with provider id "provider-sms-id" at time 5 and
the email row gets SENDING at time 7 with its stored message id still
that of the fresh row. -/
theorem sendMessage_success_updates_record_witness :
    (((SMS.sendMessage smsEnvOk twilioWorker dbAllUnsent smsMsg1).1
        smsMsg1.id).status = Status.SENDING ∧
      ((SMS.sendMessage smsEnvOk twilioWorker dbAllUnsent smsMsg1).1
        smsMsg1.id).messageId = some "provider-sms-id" ∧
      ((SMS.sendMessage smsEnvOk twilioWorker dbAllUnsent smsMsg1).1
        smsMsg1.id).deliveredAt = some smsEnvOk.now ∧
      ((SMS.sendMessage smsEnvOk twilioWorker dbAllUnsent smsMsg1).1
        smsMsg1.id).updatedAt = some smsEnvOk.now) ∧
    (((Email.sendMessage emailEnvOk dbAllUnsent emailMsg1).1
        emailMsg1.id).status = Status.SENDING ∧
      ((Email.sendMessage emailEnvOk dbAllUnsent emailMsg1).1
        emailMsg1.id).deliveredAt = some emailEnvOk.now ∧
      ((Email.sendMessage emailEnvOk dbAllUnsent emailMsg1).1
        emailMsg1.id).updatedAt = some emailEnvOk.now ∧
      ((Email.sendMessage emailEnvOk dbAllUnsent emailMsg1).1
        emailMsg1.id).messageId = (dbAllUnsent emailMsg1.id).messageId) :=
  sendMessage_success_updates_record smsEnvOk twilioWorker dbAllUnsent smsMsg1
    "98765432" "Hello world" "provider-sms-id"
    (SmsClientKind.twilioClient
      { accountSid := "", apiKey := "", apiSecret := "", messagingServiceSid := "" })
    rfl rfl rfl rfl
    emailEnvOk dbAllUnsent emailMsg1 "subject" "body" "body" "provider-message-id"
    rfl rfl rfl rfl rfl

/-- Claim C5: the transports validate the recipient before any send is
attempted. When `validator.isEmail` rejects the recipient (email) or
phone-number normalisation throws (SMS), no transport send call is made
(the returned flag is `false`) and the record is set to ERROR with the
message "Recipient is incorrectly formatted". -/
theorem invalid_recipient_no_transport_call
    (envS : SmsEnv) (w : SmsWorker) (dbS : Db) (ms : SmsMessage)
    (envE : EmailEnv) (dbE : Db) (me : EmailMessage)
    (hS : envS.normalisePhoneNumber ms.recipient envS.defaultCountry = none)
    (hE : envE.isEmail me.recipient = false) :
    ((SMS.sendMessage envS w dbS ms).2 = false ∧
      ((SMS.sendMessage envS w dbS ms).1 ms.id).status = Status.ERROR ∧
      ((SMS.sendMessage envS w dbS ms).1 ms.id).errorCode =
        some (truncate255 "Recipient is incorrectly formatted")) ∧
    ((Email.sendMessage envE dbE me).2 = false ∧
      ((Email.sendMessage envE dbE me).1 me.id).status = Status.ERROR ∧
      ((Email.sendMessage envE dbE me).1 me.id).errorCode =
        some (truncate255 "Recipient is incorrectly formatted")) := by
  constructor
  · have hred : SMS.sendMessage envS w dbS ms =
        (smsOpsSetError dbS ms.id
          (truncate255 "Recipient is incorrectly formatted") envS.now, false) := by
      simp [SMS.sendMessage, hS]
    rw [hred]
    obtain ⟨f1, f2, _⟩ :=
      smsOpsSetError_facts dbS ms.id "Recipient is incorrectly formatted" envS.now
    exact ⟨rfl, f1, f2⟩
  · have hred : Email.sendMessage envE dbE me =
        (emailOpsSetError dbE me.id
          (truncate255 "Recipient is incorrectly formatted") envE.now, false) := by
      simp [Email.sendMessage, hE]
    rw [hred]
    obtain ⟨f1, f2, _⟩ :=
      emailOpsSetError_facts dbE me.id "Recipient is incorrectly formatted" envE.now
    exact ⟨rfl, f1, f2⟩

/-- Witness for C5: with the failing validators of the bad-recipient
environments, neither transport is called and both rows go to ERROR
with the validation message. -/
theorem invalid_recipient_no_transport_call_witness :
    ((SMS.sendMessage smsEnvBadRecipient twilioWorker dbAllUnsent smsMsg1).2 = false ∧
      ((SMS.sendMessage smsEnvBadRecipient twilioWorker dbAllUnsent smsMsg1).1
        smsMsg1.id).status = Status.ERROR ∧
      ((SMS.sendMessage smsEnvBadRecipient twilioWorker dbAllUnsent smsMsg1).1
        smsMsg1.id).errorCode =
          some (truncate255 "Recipient is incorrectly formatted")) ∧
    ((Email.sendMessage emailEnvBadRecipient dbAllUnsent emailMsg1).2 = false ∧
      ((Email.sendMessage emailEnvBadRecipient dbAllUnsent emailMsg1).1
        emailMsg1.id).status = Status.ERROR ∧
      ((Email.sendMessage emailEnvBadRecipient dbAllUnsent emailMsg1).1
        emailMsg1.id).errorCode =
          some (truncate255 "Recipient is incorrectly formatted")) :=
  invalid_recipient_no_transport_call smsEnvBadRecipient twilioWorker dbAllUnsent smsMsg1
    emailEnvBadRecipient dbAllUnsent emailMsg1 rfl rfl

/-- Counterexample for C10 as stated: with the sending client torn down
by `destroySendingService` and a well-formed recipient, the gateway is
indeed skipped, but the row does not end up in SENDING with a null
provider message id: the SENDING update carries an undefined
`:messageId` named replacement, the query layer rejects it, and the
catch sets the row to ERROR instead. -/
theorem null_client_row_goes_to_error_not_sending :
    (SMS.sendMessage smsEnvOk (SMS.destroySendingService twilioWorker)
      dbAllUnsent smsMsg1).2 = false ∧
    ((SMS.sendMessage smsEnvOk (SMS.destroySendingService twilioWorker)
      dbAllUnsent smsMsg1).1 smsMsg1.id).status = Status.ERROR ∧
    ((SMS.sendMessage smsEnvOk (SMS.destroySendingService twilioWorker)
      dbAllUnsent smsMsg1).1 smsMsg1.id).status ≠ Status.SENDING := by
  refine ⟨rfl, rfl, ?_⟩
  have h0 : ((SMS.sendMessage smsEnvOk (SMS.destroySendingService twilioWorker)
      dbAllUnsent smsMsg1).1 smsMsg1.id).status = Status.ERROR := rfl
  rw [h0]
  intro h
  exact Status.noConfusion h

/-- Claim C10 (amended): when the SMS worker has no sending client
(never set, or torn down by `destroySendingService`) and the recipient
normalises, `sendMessage` still resolves and makes no gateway call, but
it does not mark the row SENDING: the SENDING update is rejected by the
query layer because its `:messageId` named replacement is undefined, so
the catch updates the row to ERROR with the truncated query-layer error
message and a fresh timestamp; every other row is untouched. -/
theorem null_client_send_skipped_marks_error
    (env : SmsEnv) (w : SmsWorker) (db : Db) (m : SmsMessage) (nr : String)
    (hw : w.smsClient = none)
    (hn : env.normalisePhoneNumber m.recipient env.defaultCountry = some nr) :
    (SMS.sendMessage env w db m).2 = false ∧
    ((SMS.sendMessage env w db m).1 m.id).status = Status.ERROR ∧
    ((SMS.sendMessage env w db m).1 m.id).errorCode =
      some (truncate255 env.undefinedReplacementError) ∧
    ((SMS.sendMessage env w db m).1 m.id).deliveredAt = some env.now ∧
    ∀ j, j ≠ m.id → (SMS.sendMessage env w db m).1 j = db j := by
  have hred : SMS.sendMessage env w db m =
      (smsOpsSetError db m.id (truncate255 env.undefinedReplacementError) env.now, false) := by
    simp [SMS.sendMessage, hn, hw]
  rw [hred]
  obtain ⟨f1, f2, f3⟩ := smsOpsSetError_facts db m.id env.undefinedReplacementError env.now
  refine ⟨rfl, f1, f2, ?_, f3⟩
  simp [smsOpsSetError, updateRow]

/-- Witness for C10 (amended): after `destroySendingService` the worker
has no client; sending the reference message makes no gateway call and
leaves its row in ERROR with the truncated query-layer message, all
other rows unchanged. -/
theorem null_client_send_skipped_marks_error_witness :
    (SMS.sendMessage smsEnvOk (SMS.destroySendingService twilioWorker)
      dbAllUnsent smsMsg1).2 = false ∧
    ((SMS.sendMessage smsEnvOk (SMS.destroySendingService twilioWorker)
      dbAllUnsent smsMsg1).1 smsMsg1.id).status = Status.ERROR ∧
    ((SMS.sendMessage smsEnvOk (SMS.destroySendingService twilioWorker)
      dbAllUnsent smsMsg1).1 smsMsg1.id).errorCode =
      some (truncate255 smsEnvOk.undefinedReplacementError) ∧
    ((SMS.sendMessage smsEnvOk (SMS.destroySendingService twilioWorker)
      dbAllUnsent smsMsg1).1 smsMsg1.id).deliveredAt = some smsEnvOk.now ∧
    ∀ j, j ≠ smsMsg1.id →
      (SMS.sendMessage smsEnvOk (SMS.destroySendingService twilioWorker)
        dbAllUnsent smsMsg1).1 j = dbAllUnsent j :=
  null_client_send_skipped_marks_error smsEnvOk
    (SMS.destroySendingService twilioWorker) dbAllUnsent smsMsg1 "98765432" rfl rfl

/-- Claim C6: with contact-preference enrichment enabled and a
non-empty fetched batch, if the campaign-owner email lookup fails (or
returns no row, which the code turns into a throw) or the external
preference service fails, `getMessages` still resolves with the full
fetched batch unenriched — for SMS the rows themselves, for email the
rows mapped through the usual masthead computation, with the batch
length unchanged. -/
theorem getMessages_enrichment_failure_full_batch
    (r0 : SmsRow) (rest : List SmsRow)
    (ownerQS : Nat → Except String (List String))
    (enrichS : List SmsRow → Nat → String → Except String (List SmsRow))
    (hS : (∃ e, ownerQS r0.campaignId = Except.error e) ∨
      ownerQS r0.campaignId = Except.ok [] ∨
      (∃ u us e, ownerQS r0.campaignId = Except.ok (u :: us) ∧
        enrichS (r0 :: rest) r0.campaignId u = Except.error e))
    (domain : String) (q0 : EmailMessage) (qrest : List EmailMessage)
    (ownerQE : Option Nat → Except String (List String))
    (enrichE : List EmailMessage → Option Nat → String → Except String (List EmailMessage))
    (hE : (∃ e, ownerQE q0.campaignId = Except.error e) ∨
      ownerQE q0.campaignId = Except.ok [] ∨
      (∃ u us e, ownerQE q0.campaignId = Except.ok (u :: us) ∧
        enrichE (q0 :: qrest) q0.campaignId u = Except.error e)) :
    SMS.getMessages true (r0 :: rest) ownerQS enrichS = r0 :: rest ∧
    Email.getMessages domain true (q0 :: qrest) ownerQE enrichE =
      List.map (Email.addMasthead domain) (q0 :: qrest) ∧
    (Email.getMessages domain true (q0 :: qrest) ownerQE enrichE).length =
      (q0 :: qrest).length := by
  have hsms : SMS.getMessages true (r0 :: rest) ownerQS enrichS = r0 :: rest := by
    rcases hS with ⟨e, he⟩ | h | ⟨u, us, e, hq, hen⟩
    · simp [SMS.getMessages, he]
    · simp [SMS.getMessages, h]
    · simp [SMS.getMessages, hq, hen]
  have hem : Email.getMessages domain true (q0 :: qrest) ownerQE enrichE =
      List.map (Email.addMasthead domain) (q0 :: qrest) := by
    rcases hE with ⟨e, he⟩ | h | ⟨u, us, e, hq, hen⟩
    · simp [Email.getMessages, he]
    · simp [Email.getMessages, h]
    · simp [Email.getMessages, hq, hen]
  refine ⟨hsms, hem, ?_⟩
  rw [hem]
  simp

/-- The fetched SMS row of the reference scenario. -/
def smsRow1 : SmsRow :=
  { id := 2, recipient := "98765432", params := [], body := "Hello world",
    campaignId := 3 }

/-- Witness for C6: the owner-email lookup rejects with
"phonebook is down"; both workers still return the full one-element
batch. -/
theorem getMessages_enrichment_failure_full_batch_witness :
    SMS.getMessages true [smsRow1] (fun _ => Except.error "phonebook is down")
        (fun rows _ _ => Except.ok rows) = [smsRow1] ∧
    Email.getMessages ".gov.sg" true [emailMsg1]
        (fun _ => Except.error "phonebook is down")
        (fun rows _ _ => Except.ok rows) =
      List.map (Email.addMasthead ".gov.sg") [emailMsg1] ∧
    (Email.getMessages ".gov.sg" true [emailMsg1]
        (fun _ => Except.error "phonebook is down")
        (fun rows _ _ => Except.ok rows)).length = ([emailMsg1] : List EmailMessage).length :=
  getMessages_enrichment_failure_full_batch smsRow1 []
    (fun _ => Except.error "phonebook is down") (fun rows _ _ => Except.ok rows)
    (Or.inl ⟨"phonebook is down", rfl⟩)
    ".gov.sg" emailMsg1 []
    (fun _ => Except.error "phonebook is down") (fun rows _ _ => Except.ok rows)
    (Or.inl ⟨"phonebook is down", rfl⟩)

/-- Claim C7: the choice between the Twilio client and the SNS fallback
client is made exactly once, in `setSendingService`, from the fallback
flag; `sendMessage` never reads the flag — its result is identical for
any two values of `smsFallback.activate` — and uses whatever client the
worker state holds. -/
theorem fallback_flag_decided_at_setup_only
    (env : SmsEnv) (b1 b2 : Bool) (w : SmsWorker) (db : Db) (m : SmsMessage)
    (getTwilioCredentials : String → Except String TwilioCredentials)
    (credentialName : String) (credentials : TwilioCredentials)
    (flag : Bool) (st : SmsWorker)
    (hc : getTwilioCredentials credentialName = Except.ok credentials) :
    SMS.sendMessage { env with smsFallbackActivate := b1 } w db m =
      SMS.sendMessage { env with smsFallbackActivate := b2 } w db m ∧
    SMS.setSendingService getTwilioCredentials flag credentialName st =
      ({ st with smsClient := some (if flag then SmsClientKind.snsSmsClient
          else SmsClientKind.twilioClient credentials) }, none) :=
  ⟨rfl, by simp [SMS.setSendingService, hc]⟩

/-- Witness for C7: with a resolver returning fixed credentials, the
flag values true/false give the same `sendMessage` result and
`setSendingService` with the flag set installs the SNS client. -/
theorem fallback_flag_decided_at_setup_only_witness :
    SMS.sendMessage { smsEnvOk with smsFallbackActivate := true }
        twilioWorker dbAllUnsent smsMsg1 =
      SMS.sendMessage { smsEnvOk with smsFallbackActivate := false }
        twilioWorker dbAllUnsent smsMsg1 ∧
    SMS.setSendingService (fun _ => Except.ok creds0) true "twilio-callback-1"
        freshSmsWorker =
      ({ freshSmsWorker with
          smsClient := some (if true then SmsClientKind.snsSmsClient
            else SmsClientKind.twilioClient creds0) }, none) :=
  fallback_flag_decided_at_setup_only smsEnvOk true false twilioWorker dbAllUnsent smsMsg1
    (fun _ => Except.ok creds0) "twilio-callback-1" creds0 true freshSmsWorker rfl

/-- Claim C8: if credential resolution rejects during
`setSendingService`, the operation surfaces exactly that error and
creates no partial state: the worker's sending client is left exactly
as it was before the call. -/
theorem credential_failure_leaves_client_unchanged
    (getTwilioCredentials : String → Except String TwilioCredentials)
    (credentialName e : String) (flag : Bool) (st : SmsWorker)
    (h : getTwilioCredentials credentialName = Except.error e) :
    SMS.setSendingService getTwilioCredentials flag credentialName st = (st, some e) ∧
    (SMS.setSendingService getTwilioCredentials flag credentialName st).1.smsClient =
      st.smsClient := by
  have hred : SMS.setSendingService getTwilioCredentials flag credentialName st =
      (st, some e) := by
    simp [SMS.setSendingService, h]
  exact ⟨hred, by rw [hred]⟩

/-- Witness for C8: a resolver that knows no credential named
"nonexistent" rejects and leaves the Twilio worker's client untouched. -/
theorem credential_failure_leaves_client_unchanged_witness :
    SMS.setSendingService (fun _ => Except.error "CredentialNotFound") false
        "nonexistent" twilioWorker = (twilioWorker, some "CredentialNotFound") ∧
    (SMS.setSendingService (fun _ => Except.error "CredentialNotFound") false
        "nonexistent" twilioWorker).1.smsClient = twilioWorker.smsClient :=
  credential_failure_leaves_client_unchanged
    (fun _ => Except.error "CredentialNotFound") "nonexistent" "CredentialNotFound"
    false twilioWorker rfl

/-- An email row as fetched from the database: the masthead flag has
not been computed yet, although the sender address does end with the
configured masthead domain. -/
def fetchedEmailRow : EmailMessage :=
  { id := 1, recipient := "user@agency.gov.sg", params := [], body := "body",
    subject := "subject", replyTo := none, senderEmail := "agency@notify.gov.sg",
    «from» := none, campaignId := some 3, agencyName := none, agencyLogoURI := none,
    showMasthead := none, contactPrefLink := none }

/-- A batch returned through the enrichment-success path of
`Email.getMessages`: the owner lookup succeeds and the spec-modelled
preference service returns a link for every recipient. -/
def enrichedBatch : List EmailMessage :=
  Email.getMessages ".gov.sg" true [fetchedEmailRow]
    (fun _ => Except.ok ["owner@agency.gov.sg"])
    (specGetContactPrefLinksForEmail (Except.ok (fun _ => some "pref-link")))

/-- Counterexample for C9 as stated: on the enrichment-success path
`Email.getMessages` returns `getContactPrefLinksForEmail`'s result
directly, bypassing the masthead map, so a returned message whose
sender address ends with the configured domain does not carry
`showMasthead = some true` — the flag is whatever the fetched row had
(here: not set at all). -/
theorem enrichment_path_skips_masthead_flag :
    strEndsWith fetchedEmailRow.senderEmail ".gov.sg" = true ∧
    ¬ (∀ m ∈ enrichedBatch,
        m.showMasthead = some (strEndsWith m.senderEmail ".gov.sg")) := by
  constructor
  · decide
  · intro h
    have hbatch : enrichedBatch =
        [{ fetchedEmailRow with contactPrefLink := some "pref-link" }] := rfl
    have hm := h { fetchedEmailRow with contactPrefLink := some "pref-link" }
      (by rw [hbatch]; exact List.mem_singleton.mpr rfl)
    exact Option.noConfusion hm

/-- The call to `Email.getMessages` takes a non-enrichment path: the
feature flag is off, or the batch is empty, or the owner-email lookup
fails or returns no row, or the enrichment call itself fails — every
case in which the code falls through to the masthead map. -/
def emailNonEnrichmentPath (enabled : Bool) (result : List EmailMessage)
    (ownerQE : Option Nat → Except String (List String))
    (enrichE : List EmailMessage → Option Nat → String → Except String (List EmailMessage)) :
    Prop :=
  enabled = false ∨ result = [] ∨
  (∃ q0 qrest, result = q0 :: qrest ∧
    ((∃ e, ownerQE q0.campaignId = Except.error e) ∨
     ownerQE q0.campaignId = Except.ok [] ∨
     (∃ u us e, ownerQE q0.campaignId = Except.ok (u :: us) ∧
       enrichE result q0.campaignId u = Except.error e)))

/-- Claim C9 (amended): every message returned by the email worker's
`getMessages` through any non-enrichment path (feature flag off, empty
batch, owner lookup failing or empty, or the preference service
failing) carries `showMasthead = (senderEmail ends with the configured
domain)`; messages returned through the enrichment-success path keep
whatever masthead flag the fetched rows already had — the flag is not
derived there. -/
theorem masthead_flag_non_enrichment_paths
    (domain : String) (enabled : Bool) (result : List EmailMessage)
    (ownerQE : Option Nat → Except String (List String))
    (enrichE : List EmailMessage → Option Nat → String → Except String (List EmailMessage))
    (hpath : emailNonEnrichmentPath enabled result ownerQE enrichE)
    (ownerQE2 : Option Nat → Except String (List String))
    (service : Except String (String → Option String))
    (q0 : EmailMessage) (qrest : List EmailMessage)
    (f : String → Option String) (u : String) (us : List String)
    (hsvc : service = Except.ok f)
    (hq : ownerQE2 q0.campaignId = Except.ok (u :: us)) :
    (Email.getMessages domain enabled result ownerQE enrichE =
        List.map (Email.addMasthead domain) result ∧
      ∀ m ∈ Email.getMessages domain enabled result ownerQE enrichE,
        m.showMasthead = some (strEndsWith m.senderEmail domain)) ∧
    ((Email.getMessages domain true (q0 :: qrest) ownerQE2
        (specGetContactPrefLinksForEmail service)).map EmailMessage.showMasthead =
      (q0 :: qrest).map EmailMessage.showMasthead) := by
  constructor
  · have hout : Email.getMessages domain enabled result ownerQE enrichE =
        List.map (Email.addMasthead domain) result := by
      rcases hpath with h | h | ⟨q0x, qrestx, rfl, hfail⟩
      · subst h
        cases result with
        | nil => simp [Email.getMessages]
        | cons a l => simp [Email.getMessages]
      · subst h
        cases enabled <;> simp [Email.getMessages]
      · cases enabled with
        | false => simp [Email.getMessages]
        | true =>
          rcases hfail with ⟨e, he⟩ | h0 | ⟨u0, us0, e, hq0, hen⟩
          · simp [Email.getMessages, he]
          · simp [Email.getMessages, h0]
          · simp [Email.getMessages, hq0, hen]
    refine ⟨hout, ?_⟩
    intro m hm
    rw [hout] at hm
    rcases List.mem_map.mp hm with ⟨x, _, rfl⟩
    simp [Email.addMasthead]
  · have hout : Email.getMessages domain true (q0 :: qrest) ownerQE2
        (specGetContactPrefLinksForEmail service) =
        List.map (fun m => { m with contactPrefLink := f m.recipient }) (q0 :: qrest) := by
      simp [Email.getMessages, hq, hsvc, specGetContactPrefLinksForEmail]
    rw [hout, List.map_map]
    rfl

/-- Witness for C9 (amended): with enrichment enabled but the owner
lookup rejecting, the one returned message carries the flag derived
from its sender address; on the enrichment-success path the returned
flags equal the fetched rows' flags. -/
theorem masthead_flag_non_enrichment_paths_witness :
    (Email.getMessages ".gov.sg" true [fetchedEmailRow]
        (fun _ => Except.error "phonebook is down")
        (specGetContactPrefLinksForEmail (Except.ok (fun _ => some "pref-link"))) =
        List.map (Email.addMasthead ".gov.sg") [fetchedEmailRow] ∧
      ∀ m ∈ Email.getMessages ".gov.sg" true [fetchedEmailRow]
          (fun _ => Except.error "phonebook is down")
          (specGetContactPrefLinksForEmail (Except.ok (fun _ => some "pref-link"))),
        m.showMasthead = some (strEndsWith m.senderEmail ".gov.sg")) ∧
    ((Email.getMessages ".gov.sg" true [fetchedEmailRow]
        (fun _ => Except.ok ["owner@agency.gov.sg"])
        (specGetContactPrefLinksForEmail (Except.ok (fun _ => some "pref-link")))).map
          EmailMessage.showMasthead =
      ([fetchedEmailRow] : List EmailMessage).map EmailMessage.showMasthead) :=
  masthead_flag_non_enrichment_paths ".gov.sg" true [fetchedEmailRow]
    (fun _ => Except.error "phonebook is down")
    (specGetContactPrefLinksForEmail (Except.ok (fun _ => some "pref-link")))
    (Or.inr (Or.inr ⟨fetchedEmailRow, [], rfl, Or.inl ⟨"phonebook is down", rfl⟩⟩))
    (fun _ => Except.ok ["owner@agency.gov.sg"])
    (Except.ok (fun _ => some "pref-link"))
    fetchedEmailRow [] (fun _ => some "pref-link") "owner@agency.gov.sg" [] rfl rfl
